import Mathlib

/-!
Verification development for the Réunion radio audience analyzer
(`src/Radio.py`).  The program builds, for a fixed registry of eight radio
stations, a synthetic audience-share time series (2002..2025, per-station
start year), flattens it into a record table and feeds that table to
reporting and export code.

The embedding is a shallow one over ℚ.  The stochastic draws
(`np.random.normal`, `np.random.uniform`) are abstracted into an explicit
random source `Rand`, indexed by station name and year so that each
iteration of the generation loop owns its draws.  Python's `round(x, 1)`
(round to nearest multiple of 1/10, ties to even — the documented CPython
behaviour) is modelled exactly on ℚ by `round1`.
-/

namespace Radio

/-- An explicit random source: `normal s y μ σ` is the value of the
`np.random.normal(μ, σ)` draw made while generating station `s`, year `y`;
`uniform s y lo hi` likewise for `np.random.uniform(lo, hi)`. -/
structure Rand where
  normal : String → ℤ → ℚ → ℚ → ℚ
  uniform : String → ℤ → ℚ → ℚ → ℚ

/-- Static station attributes, one entry of the `self.radios` dict
(`Radio.py` lines 14-23). -/
structure StationInfo where
  type : String
  lancement : ℤ
  couleur : String
deriving DecidableEq

/-- Per-station trend parameters, one entry of the `trends` dict in
`_create_realistic_audience_data` (lines 33-42).  In the source the
baseline is keyed by the station's start year as a string
(`params[str(start_year)]`); the key always equals the start year, so the
baseline is kept as a plain field here. -/
structure Trend where
  base : ℚ
  trend : ℚ
  volatility : ℚ
deriving DecidableEq

/-- The static station registry `self.radios` (lines 14-23), in dict
insertion order. -/
def radios : List (String × StationInfo) :=
  [("Réunion 1ère", ⟨"Public", 1960, "#FF6B00"⟩),
   ("NRJ Réunion", ⟨"Commercial", 1990, "#FF0000"⟩),
   ("Freedom", ⟨"Commercial", 1982, "#0000FF"⟩),
   ("RCI", ⟨"Commercial", 1981, "#800080"⟩),
   ("Radio Est", ⟨"Associative", 1983, "#008000"⟩),
   ("Radio Kreol", ⟨"Culturelle", 1995, "#FFD700"⟩),
   ("Hit West", ⟨"Commercial", 2005, "#FF1493"⟩),
   ("Radio Sun", ⟨"Commercial", 1987, "#FFA500"⟩)]

/-- The trend registry `trends` (lines 33-42), in dict insertion order. -/
def trends : List (String × Trend) :=
  [("Réunion 1ère", ⟨28.5, -0.25, 0.8⟩),
   ("NRJ Réunion", ⟨16.8, 0.15, 1.0⟩),
   ("Freedom", ⟨14.2, 0.10, 0.9⟩),
   ("RCI", ⟨12.5, -0.08, 0.7⟩),
   ("Radio Est", ⟨8.3, 0.05, 0.6⟩),
   ("Radio Kreol", ⟨6.7, 0.20, 0.8⟩),
   ("Hit West", ⟨4.5, 0.35, 1.2⟩),
   ("Radio Sun", ⟨5.2, 0.12, 0.7⟩)]

/-- Start-year selection: `start_year = 2002; if radio == 'Hit West':
start_year = 2005` (lines 46-48). -/
def startYear (radio : String) : ℤ :=
  if radio = "Hit West" then 2005 else 2002

/-- Python `round` to an integer: nearest integer, ties to even. -/
def roundHalfEven (q : ℚ) : ℤ :=
  let n := ⌊q⌋
  let f := q - n
  if f < 1/2 then n
  else if 1/2 < f then n + 1
  else if n % 2 = 0 then n else n + 1

/-- Python `round(q, 1)`: nearest multiple of 1/10, ties to even. -/
def round1 (q : ℚ) : ℚ := (roundHalfEven (10 * q) : ℚ) / 10

/-- The body of the generation loop before clamping (lines 58-72):
linear trend, the Gaussian draw, then the fixed-year shock draws. -/
def rawValue (r : Rand) (radio : String) (p : Trend) (sy year : ℤ) : ℚ :=
  let yearsPassed : ℚ := ((year : ℚ) - (sy : ℚ))
  let value := p.base + p.trend * yearsPassed
  let value := value + r.normal radio year 0 p.volatility
  if year = 2008 then value + r.uniform radio year (-2) (-1)
  else if year = 2020 then value + r.uniform radio year 2 4
  else if year = 2021 then value + r.uniform radio year (-1) 1
  else value

/-- Clamping and rounding, `value = max(1.0, min(35.0, round(value, 1)))`
(line 75). -/
def finalValue (r : Rand) (radio : String) (p : Trend) (sy year : ℤ) : ℚ :=
  max 1 (min 35 (round1 (rawValue r radio p sy year)))

/-- The loop `for year in range(2002, 2026)` (line 54). -/
def loopYears : List ℤ := (List.range 24).map (fun (i : ℕ) => 2002 + (i : ℤ))

/-- The years actually generated for a station: the loop years with
`if year < start_year: continue` (lines 55-56). -/
def stationYears (sy : ℤ) : List ℤ :=
  loopYears.filter (fun y => !decide (y < sy))

/-- One station's year → value mapping (`audience_data[radio]`), as an
association list in insertion order (ascending years). -/
def stationData (r : Rand) (radio : String) (p : Trend) : List (ℤ × ℚ) :=
  (stationYears (startYear radio)).map
    (fun y => (y, finalValue r radio p (startYear radio) y))

/-- The dict `self.audience_data` as built by
`_create_realistic_audience_data` (lines 28-78): an association list
station → (year → value), stations in `trends` insertion order. -/
def audienceData (r : Rand) : List (String × List (ℤ × ℚ)) :=
  trends.map (fun t => (t.1, stationData r t.1 t.2))

/-- Embeds `get_radio_data` (lines 80-82):
`self.audience_data.get(radio_name, {})`. -/
def get_radio_data (r : Rand) (name : String) : List (ℤ × ℚ) :=
  ((audienceData r).lookup name).getD []

/-- One row of the flat table built by `get_all_data` (lines 90-97). -/
structure FlatRecord where
  radio : String
  type : String
  annee : ℤ
  audience : ℚ
  lancement : ℤ
  couleur : String
deriving DecidableEq

/-- Registry lookup `self.radios[radio]`; total with a junk default (the
source would raise `KeyError`, which never happens on the fixed
registries). -/
def radioInfo (name : String) : StationInfo :=
  (radios.lookup name).getD ⟨"", 0, ""⟩

/-- The dict appended per (radio, year) in `get_all_data` (lines 90-97). -/
def mkRecord (radio : String) (year : ℤ) (aud : ℚ) : FlatRecord :=
  { radio := radio
    type := (radioInfo radio).type
    annee := year
    audience := aud
    lancement := (radioInfo radio).lancement
    couleur := (radioInfo radio).couleur }

/-- Embeds `get_all_data` (lines 84-99): the nested append loop over
`self.audience_data.items()`. -/
def get_all_data (r : Rand) : List FlatRecord :=
  ((audienceData r).map (fun rd => rd.2.map (fun ya => mkRecord rd.1 ya.1 ya.2))).flatten

/-- A random source on which every draw is 0: Gaussian noise forced to
zero and the shock draws disabled. -/
def zeroRand : Rand := ⟨fun _ _ _ _ => 0, fun _ _ _ _ => 0⟩

/-- A random source whose uniform draws return the lower endpoint, so
every `uniform lo hi` draw lies in `[lo, hi]`. -/
def loRand : Rand := ⟨fun _ _ _ _ => 0, fun _ _ lo _ => lo⟩

/-- The contiguous inclusive integer range `[a, b]` as a list. -/
def intRange (a b : ℤ) : List ℤ :=
  (List.range (b + 1 - a).toNat).map (fun (i : ℕ) => a + (i : ℤ))

/-- The audience column of the sub-table `df[df['Radio'] == radio]`, in
row order (which is the `get_all_data` append order). -/
def stationAudiences (r : Rand) (radio : String) : List ℚ :=
  ((get_all_data r).filter (fun rec => rec.radio == radio)).map (fun rec => rec.audience)

/-- The per-station delta printed by `_display_statistics` (lines
199-206): guarded by `len(radio_data) > 1`, it computes
`end = radio_data['Audience (%)'].max()` and prints
`end - radio_data['Audience (%)'].iloc[0]`. -/
def consoleTrend (r : Rand) (radio : String) : Option ℚ :=
  match stationAudiences r radio with
  | [] => none
  | h :: t => if (h :: t).length > 1 then some ((t.foldl max h) - h) else none

/-- The per-station delta drawn by the fourth chart panel of
`create_comprehensive_analysis` (lines 148-156): guarded by
`len(radio_data) > 1`, it computes `iloc[-1] - iloc[0]` over the
audience column. -/
def chartTrend (r : Rand) (radio : String) : Option ℚ :=
  match stationAudiences r radio with
  | [] => none
  | h :: t => if (h :: t).length > 1 then some ((h :: t).getLast (by simp) - h) else none

/-- Numeric value of a decimal digit character. -/
def digitVal (c : Char) : Option ℕ :=
  if c.isDigit then some (c.toNat - 48) else none

/-- Accumulator loop for decimal-string parsing. -/
def parseNatAux : List Char → ℕ → Option ℕ
  | [], acc => some acc
  | c :: rest, acc =>
    match digitVal c with
    | some d => parseNatAux rest (10 * acc + d)
    | none => none

/-- Parses a nonempty all-digit character list as a natural number. -/
def parseNat (l : List Char) : Option ℕ :=
  match l with
  | [] => none
  | _ => parseNatAux l 0

/-- Splits a character list at the first `'.'`, if any. -/
def splitDot : List Char → Option (List Char × List Char)
  | [] => none
  | c :: rest =>
    if c = '.' then some ([], rest)
    else (splitDot rest).map (fun ab => (c :: ab.1, ab.2))

/-- Decimal rendering of an audience value (an exact multiple of 1/10 in
`[1, 35]`), as pandas prints it in the CSV: integer part, dot, one
tenths digit. -/
def encodeTenth (v : ℚ) : String :=
  let k := ⌊10 * v⌋
  toString (k / 10) ++ "." ++ toString (k % 10)

/-- Parses a decimal cell (`"28.5"` or `"28"`) back to a rational. -/
def decodeValue (s : String) : Option ℚ :=
  match splitDot s.data with
  | some (a, b) =>
    match parseNat a, parseNat b with
    | some n, some d => some ((n : ℚ) + (d : ℚ) / (10 : ℚ) ^ b.length)
    | _, _ => none
  | none => (parseNat s.data).map (fun n => (n : ℚ))

/-- Parses a year cell back to an integer. -/
def parseYear (s : String) : Option ℤ :=
  (parseNat s.data).map (fun n => (n : ℤ))

/-- One CSV row of `df.to_csv` (line 255), at cell granularity, in the
DataFrame column order Radio, Type, Année, Audience, Lancement, Couleur.
None of the cell contents contain a comma, so cell granularity is
faithful to the comma-separated text. -/
def csvCells (rec : FlatRecord) : List String :=
  [rec.radio, rec.type, toString rec.annee, encodeTenth rec.audience,
   toString rec.lancement, rec.couleur]

/-- The exported CSV body: one row per flat record. -/
def writeCSV (l : List FlatRecord) : List (List String) :=
  l.map csvCells

/-- Reads one CSV row back as a (station, year, value) triple. -/
def parseRow (cells : List String) : Option (String × ℤ × ℚ) :=
  match cells with
  | [radio, _t, yearS, audS, _l, _c] =>
    match parseYear yearS, decodeValue audS with
    | some y, some v => some (radio, y, v)
    | _, _ => none
  | _ => none

/-- Reads a CSV body row by row; fails if any row fails. -/
def parseCSV : List (List String) → Option (List (String × ℤ × ℚ))
  | [] => some []
  | row :: rest =>
    match parseRow row, parseCSV rest with
    | some t, some ts => some (t :: ts)
    | _, _ => none

/-- The (station, year) skeleton of the flat table, which does not depend
on the random source. -/
def radioYearPairs : List (String × ℤ) :=
  (trends.map (fun t => (stationYears (startYear t.1)).map (fun y => (t.1, y)))).flatten

/-! ### Helper lemmas -/

set_option maxRecDepth 1000000

theorem lookup_map_snd {α β γ : Type} [BEq α] [LawfulBEq α] (f : α → β → γ) :
    ∀ (l : List (α × β)) (a : α),
      List.lookup a (l.map fun t => (t.1, f t.1 t.2)) = (List.lookup a l).map (f a)
  | [], _ => rfl
  | (k, b) :: rest, a => by
    simp only [List.map_cons, List.lookup]
    cases h : (a == k) with
    | true =>
      have : a = k := eq_of_beq h
      subst this
      simp
    | false =>
      simpa using lookup_map_snd f rest a

theorem lookup_eq_none_of_not_mem {α β : Type} [BEq α] [LawfulBEq α] :
    ∀ (l : List (α × β)) (a : α), a ∉ l.map Prod.fst → List.lookup a l = none
  | [], _, _ => rfl
  | (k, b) :: rest, a, h => by
    simp only [List.map_cons, List.mem_cons, not_or] at h
    simp only [List.lookup]
    have : (a == k) = false := beq_false_of_ne h.1
    simp only [this]
    exact lookup_eq_none_of_not_mem rest a h.2

theorem mem_intRange {a b y : ℤ} : y ∈ intRange a b ↔ a ≤ y ∧ y ≤ b := by
  unfold intRange
  rw [List.mem_map (f := fun i : ℕ => a + (i : ℤ)) (l := List.range (b + 1 - a).toNat)]
  constructor
  · rintro ⟨i, hi, rfl⟩
    have := List.mem_range.mp hi
    omega
  · rintro ⟨h1, h2⟩
    exact ⟨(y - a).toNat, List.mem_range.mpr (by omega), by omega⟩

theorem startYear_cases (radio : String) :
    startYear radio = 2002 ∨ startYear radio = 2005 := by
  unfold startYear
  split <;> simp

theorem stationYears_eq_intRange {sy : ℤ} (h : sy = 2002 ∨ sy = 2005) :
    stationYears sy = intRange sy 2025 := by
  rcases h with h | h <;> subst h <;> decide

theorem mem_loopYears {y : ℤ} : y ∈ loopYears ↔ 2002 ≤ y ∧ y ≤ 2025 := by
  unfold loopYears
  rw [List.mem_map (f := fun i : ℕ => 2002 + (i : ℤ)) (l := List.range 24)]
  constructor
  · rintro ⟨i, hi, rfl⟩
    have := List.mem_range.mp hi
    omega
  · rintro ⟨h1, h2⟩
    exact ⟨(y - 2002).toNat, List.mem_range.mpr (by omega), by omega⟩

theorem mem_stationYears {sy y : ℤ} :
    y ∈ stationYears sy ↔ 2002 ≤ y ∧ y ≤ 2025 ∧ sy ≤ y := by
  unfold stationYears
  rw [List.mem_filter, mem_loopYears]
  simp only [Bool.not_eq_eq_eq_not, Bool.not_true, decide_eq_false_iff_not, not_lt]
  omega

theorem finalValue_eq_tenths (r : Rand) (radio : String) (p : Trend) (sy y : ℤ) :
    ∃ k : ℤ, finalValue r radio p sy y = (k : ℚ) / 10 ∧ 10 ≤ k ∧ k ≤ 350 := by
  refine ⟨max 10 (min 350 (roundHalfEven (10 * rawValue r radio p sy y))), ?_, by omega, by omega⟩
  unfold finalValue round1
  set m := roundHalfEven (10 * rawValue r radio p sy y) with hm
  have h10 : (0 : ℚ) < 10 := by norm_num
  push_cast
  rw [← max_div_div_right (le_of_lt h10), ← min_div_div_right (le_of_lt h10)]
  norm_num

theorem finalValue_bounds (r : Rand) (radio : String) (p : Trend) (sy y : ℤ) :
    1 ≤ finalValue r radio p sy y ∧ finalValue r radio p sy y ≤ 35 := by
  rcases finalValue_eq_tenths r radio p sy y with ⟨k, hv, h1, h2⟩
  rw [hv]
  have h10 : (0 : ℚ) < 10 := by norm_num
  constructor
  · rw [le_div_iff₀ h10]
    norm_num
    exact_mod_cast h1
  · rw [div_le_iff₀ h10]
    norm_num
    exact_mod_cast h2

theorem mem_get_all_data {r : Rand} {rec : FlatRecord} (h : rec ∈ get_all_data r) :
    ∃ t ∈ trends, ∃ y ∈ stationYears (startYear t.1),
      rec = mkRecord t.1 y (finalValue r t.1 t.2 (startYear t.1) y) := by
  unfold get_all_data audienceData stationData at h
  rw [List.mem_flatten] at h
  rcases h with ⟨inner, hinner, hrec⟩
  rw [List.map_map, List.mem_map] at hinner
  rcases hinner with ⟨t, ht, rfl⟩
  simp only [Function.comp_apply, List.map_map, List.mem_map, Function.comp_apply] at hrec
  rcases hrec with ⟨y, hy, rfl⟩
  exact ⟨t, ht, y, hy, rfl⟩

theorem map_pair_get_all_data (r : Rand) :
    (get_all_data r).map (fun rec => (rec.radio, rec.annee)) = radioYearPairs := by
  unfold get_all_data radioYearPairs audienceData stationData
  rw [List.map_flatten]
  simp only [List.map_map]
  congr 1

theorem map_radio_get_all_data (r : Rand) :
    (get_all_data r).map (fun rec => rec.radio) =
      (trends.map (fun t => List.replicate (stationYears (startYear t.1)).length t.1)).flatten := by
  unfold get_all_data audienceData stationData
  rw [List.map_flatten]
  simp only [List.map_map]
  congr 1

theorem parseYear_roundTrip {y : ℤ} (h1 : 2002 ≤ y) (h2 : y ≤ 2025) :
    parseYear (toString y) = some y := by
  have key : ∀ n ∈ List.range 24,
      parseYear (toString ((2002 + n : ℕ) : ℤ)) = some ((2002 + n : ℕ) : ℤ) := by
    with_unfolding_all decide
  have hy : y = ((2002 + (y - 2002).toNat : ℕ) : ℤ) := by omega
  rw [hy]
  exact key _ (List.mem_range.mpr (by omega))

theorem decode_encode_tenth {k : ℤ} (h1 : 10 ≤ k) (h2 : k ≤ 350) :
    decodeValue (encodeTenth ((k : ℚ) / 10)) = some ((k : ℚ) / 10) := by
  have key : ∀ n ∈ List.range 341,
      decodeValue (encodeTenth ((((10 + n : ℕ) : ℤ) : ℚ) / 10)) =
        some ((((10 + n : ℕ) : ℤ) : ℚ) / 10) := by
    with_unfolding_all decide
  have hy : k = ((10 + (k - 10).toNat : ℕ) : ℤ) := by omega
  rw [hy]
  exact key _ (List.mem_range.mpr (by omega))

theorem parseRow_csvCells {rec : FlatRecord} (hy1 : 2002 ≤ rec.annee)
    (hy2 : rec.annee ≤ 2025) {k : ℤ} (hk : rec.audience = (k : ℚ) / 10)
    (h1 : 10 ≤ k) (h2 : k ≤ 350) :
    parseRow (csvCells rec) = some (rec.radio, rec.annee, rec.audience) := by
  simp only [csvCells, parseRow]
  rw [parseYear_roundTrip hy1 hy2, hk, decode_encode_tenth h1 h2]

theorem parseCSV_writeCSV {l : List FlatRecord}
    (h : ∀ rec ∈ l, parseRow (csvCells rec) = some (rec.radio, rec.annee, rec.audience)) :
    parseCSV (writeCSV l) = some (l.map (fun rec => (rec.radio, rec.annee, rec.audience))) := by
  induction l with
  | nil => rfl
  | cons a t ih =>
    have ha := h a (List.mem_cons_self a t)
    have ht := ih (fun x hx => h x (List.mem_cons_of_mem a hx))
    unfold writeCSV at ht ⊢
    simp only [List.map_cons]
    unfold parseCSV
    rw [ha, ht]

theorem intRange_nodup (a b : ℤ) : (intRange a b).Nodup := by
  unfold intRange
  exact (List.nodup_range _).map (fun i j h => by omega)

theorem registry_complete :
    ∀ name ∈ trends.map Prod.fst, (radios.lookup name).isSome = true := by
  decide

/-- A boolean check of the adjacent-pair ordering condition, used because
the `Decidable` instance for `List.Chain'` does not kernel-reduce. -/
def pairwiseAdj : List (String × ℤ) → Bool
  | [] => true
  | [_] => true
  | a :: b :: rest => (decide (a.1 = b.1 → a.2 < b.2)) && pairwiseAdj (b :: rest)

theorem chain'_of_pairwiseAdj :
    ∀ {l : List (String × ℤ)}, pairwiseAdj l = true →
      List.Chain' (fun a b : String × ℤ => a.1 = b.1 → a.2 < b.2) l
  | [], _ => List.chain'_nil
  | [_], _ => List.chain'_singleton _
  | a :: b :: rest, h => by
    unfold pairwiseAdj at h
    rw [Bool.and_eq_true] at h
    rw [List.chain'_cons]
    exact ⟨of_decide_eq_true h.1, chain'_of_pairwiseAdj h.2⟩

/-! ### Claim theorems -/

/-- Claim C1: for every station and every year in its coverage range, the
generated audience value lies in the closed interval `[1, 35]` and is an
exact multiple of 1/10 (rounded to one decimal place). -/
theorem generated_value_in_bounds_and_tenths (r : Rand) (radio : String)
    (data : List (ℤ × ℚ)) (hmem : (radio, data) ∈ audienceData r)
    (y : ℤ) (v : ℚ) (hv : (y, v) ∈ data) :
    1 ≤ v ∧ v ≤ 35 ∧ ∃ k : ℤ, v = (k : ℚ) / 10 := by
  unfold audienceData at hmem
  rw [List.mem_map] at hmem
  rcases hmem with ⟨t, ht, heq⟩
  injection heq with hr hd
  subst hr
  subst hd
  unfold stationData at hv
  rw [List.mem_map] at hv
  rcases hv with ⟨y', hy', heq2⟩
  injection heq2 with hy2 hv2
  subst hv2
  rcases finalValue_bounds r t.1 t.2 (startYear t.1) y' with ⟨hb1, hb2⟩
  rcases finalValue_eq_tenths r t.1 t.2 (startYear t.1) y' with ⟨k, hk, _, _⟩
  exact ⟨hb1, hb2, k, hk⟩

/-- Witness for C1 at a concrete input: station Réunion 1ère, year 2002,
value 28.5 under the all-zero random source. -/
theorem generated_value_in_bounds_and_tenths_witness :
    1 ≤ (28.5 : ℚ) ∧ (28.5 : ℚ) ≤ 35 ∧ ∃ k : ℤ, (28.5 : ℚ) = (k : ℚ) / 10 :=
  generated_value_in_bounds_and_tenths zeroRand "Réunion 1ère"
    (stationData zeroRand "Réunion 1ère" ⟨28.5, -0.25, 0.8⟩)
    (by with_unfolding_all decide) 2002 28.5 (by with_unfolding_all decide)

/-- Claim C2: for every registered station, the year keys generated for it
form exactly the contiguous inclusive range from its start year (2005 for
Hit West, 2002 otherwise) through 2025, with no gaps and no duplicates. -/
theorem coverage_years_contiguous (r : Rand) (radio : String) (p : Trend)
    (h : trends.lookup radio = some p) :
    ∃ m, (audienceData r).lookup radio = some m ∧
      m.map Prod.fst = intRange (startYear radio) 2025 ∧
      (m.map Prod.fst).Nodup ∧
      (∀ y : ℤ, y ∈ m.map Prod.fst ↔ startYear radio ≤ y ∧ y ≤ 2025) := by
  have hkeys : (stationData r radio p).map Prod.fst = stationYears (startYear radio) := by
    unfold stationData
    rw [List.map_map]
    rw [show (Prod.fst ∘ fun y => (y, finalValue r radio p (startYear radio) y)) = id from rfl]
    exact List.map_id _
  refine ⟨stationData r radio p, ?_, ?_, ?_, ?_⟩
  · unfold audienceData
    rw [lookup_map_snd (fun n q => stationData r n q) trends radio, h]
    rfl
  · rw [hkeys]
    exact stationYears_eq_intRange (startYear_cases radio)
  · rw [hkeys, stationYears_eq_intRange (startYear_cases radio)]
    exact intRange_nodup _ _
  · intro y
    rw [hkeys, mem_stationYears]
    rcases startYear_cases radio with hsy | hsy <;> rw [hsy] <;> constructor <;> intro hh <;> omega

/-- Witness for C2 at the one station whose start year is 2005. -/
theorem coverage_years_contiguous_witness :
    ∃ m, (audienceData zeroRand).lookup "Hit West" = some m ∧
      m.map Prod.fst = intRange (startYear "Hit West") 2025 ∧
      (m.map Prod.fst).Nodup ∧
      (∀ y : ℤ, y ∈ m.map Prod.fst ↔ startYear "Hit West" ≤ y ∧ y ≤ 2025) :=
  coverage_years_contiguous zeroRand "Hit West" ⟨4.5, 0.35, 1.2⟩
    (by with_unfolding_all decide)

/-- Claim C9: `get_radio_data` returns the empty mapping for any name not
present in the generated data, and the station's full year map for every
registered station. -/
theorem get_radio_data_safe (r : Rand) (name : String) :
    (name ∉ (audienceData r).map Prod.fst → get_radio_data r name = []) ∧
    (∀ p, trends.lookup name = some p → get_radio_data r name = stationData r name p) := by
  constructor
  · intro h
    unfold get_radio_data
    rw [lookup_eq_none_of_not_mem _ _ h]
    rfl
  · intro p hp
    unfold get_radio_data audienceData
    rw [lookup_map_snd (fun n q => stationData r n q) trends name, hp]
    rfl

/-- Witness for C9: an unregistered name yields the empty map, and the
registered station Hit West yields its full map. -/
theorem get_radio_data_safe_witness :
    ("Radio Pirate" ∉ (audienceData zeroRand).map Prod.fst ∧
      get_radio_data zeroRand "Radio Pirate" = []) ∧
    (trends.lookup "Hit West" = some ⟨4.5, 0.35, 1.2⟩ ∧
      get_radio_data zeroRand "Hit West" =
        stationData zeroRand "Hit West" ⟨4.5, 0.35, 1.2⟩) :=
  ⟨⟨by with_unfolding_all decide,
    (get_radio_data_safe zeroRand "Radio Pirate").1 (by with_unfolding_all decide)⟩,
   ⟨by with_unfolding_all decide,
    (get_radio_data_safe zeroRand "Hit West").2 ⟨4.5, 0.35, 1.2⟩
      (by with_unfolding_all decide)⟩⟩

/-- Claim C10: the flat record list is grouped by station in registry
insertion order (its projection to station names is a concatenation of
per-station constant blocks in `trends` order), and any two adjacent
records of the same station have strictly increasing years. -/
theorem flat_table_grouped_ordered (r : Rand) :
    (get_all_data r).map (fun rec => rec.radio) =
      (trends.map (fun t => List.replicate (stationYears (startYear t.1)).length t.1)).flatten ∧
    List.Chain' (fun a b => a.radio = b.radio → a.annee < b.annee) (get_all_data r) := by
  constructor
  · exact map_radio_get_all_data r
  · have hp : List.Chain' (fun a b : String × ℤ => a.1 = b.1 → a.2 < b.2)
        ((get_all_data r).map (fun rec => (rec.radio, rec.annee))) := by
      rw [map_pair_get_all_data r]
      exact chain'_of_pairwiseAdj (by decide)
    rw [List.chain'_map] at hp
    exact hp

/-- Claim C3 counterexample: in the claim's scenario (all random draws
zero, station with baseline 28.5, slope −0.25, start year 2002), the 2003
value is 28.2, not the claimed 28.3: Python's `round` takes the exact tie
28.25 to the even tenth. -/
theorem scenario_2003_value_is_28_2 :
    finalValue zeroRand "Réunion 1ère" ⟨28.5, -0.25, 0.8⟩ 2002 2003 = 28.2 ∧
    (28.2 : ℚ) ≠ 28.3 := by
  with_unfolding_all decide

/-- Claim C3 (amended): with noise forced to zero and the shock draws
zero, the station with baseline 28.5, slope −0.25 and start year 2002
yields 28.5 for 2002, 28.2 for 2003 (28.25 rounds to the even tenth) and
26.5 for 2010, and every generated value of that station lies in
`[1, 35]`. -/
theorem scenario_zero_noise_values (r : Rand)
    (h0 : ∀ s y μ σ, r.normal s y μ σ = 0)
    (h1 : ∀ s y lo hi, r.uniform s y lo hi = 0) :
    finalValue r "Réunion 1ère" ⟨28.5, -0.25, 0.8⟩ 2002 2002 = 28.5 ∧
    finalValue r "Réunion 1ère" ⟨28.5, -0.25, 0.8⟩ 2002 2003 = 28.2 ∧
    finalValue r "Réunion 1ère" ⟨28.5, -0.25, 0.8⟩ 2002 2010 = 26.5 ∧
    ∀ y : ℤ, 1 ≤ finalValue r "Réunion 1ère" ⟨28.5, -0.25, 0.8⟩ 2002 y ∧
      finalValue r "Réunion 1ère" ⟨28.5, -0.25, 0.8⟩ 2002 y ≤ 35 := by
  have hval : ∀ y : ℤ, finalValue r "Réunion 1ère" ⟨28.5, -0.25, 0.8⟩ 2002 y =
      finalValue zeroRand "Réunion 1ère" ⟨28.5, -0.25, 0.8⟩ 2002 y := by
    intro y
    unfold finalValue rawValue
    rw [h0, h1, h1, h1]
    rfl
  refine ⟨?_, ?_, ?_, fun y => finalValue_bounds r _ _ _ _⟩
  · rw [hval]
    with_unfolding_all decide
  · rw [hval]
    with_unfolding_all decide
  · rw [hval]
    with_unfolding_all decide

/-- Witness for the amended C3, at the all-zero random source. -/
theorem scenario_zero_noise_values_witness :
    finalValue zeroRand "Réunion 1ère" ⟨28.5, -0.25, 0.8⟩ 2002 2002 = 28.5 ∧
    finalValue zeroRand "Réunion 1ère" ⟨28.5, -0.25, 0.8⟩ 2002 2003 = 28.2 ∧
    finalValue zeroRand "Réunion 1ère" ⟨28.5, -0.25, 0.8⟩ 2002 2010 = 26.5 ∧
    ∀ y : ℤ, 1 ≤ finalValue zeroRand "Réunion 1ère" ⟨28.5, -0.25, 0.8⟩ 2002 y ∧
      finalValue zeroRand "Réunion 1ère" ⟨28.5, -0.25, 0.8⟩ 2002 y ≤ 35 :=
  scenario_zero_noise_values zeroRand (fun _ _ _ _ => rfl) (fun _ _ _ _ => rfl)

/-- Claim C4: over the embedded generator with an explicit random source
whose uniform draws respect their range, the pre-clamp value decomposes
as baseline + slope·(year − start) + the station's Gaussian draw (mean 0,
stddev = volatility) + a shock that is minus an amount in `[1, 2]` in
2008, an amount in `[2, 4]` in 2020, an amount in `[-1, 1]` in 2021, and
zero in all other years. -/
theorem raw_value_decomposition (r : Rand) (radio : String) (p : Trend) (sy y : ℤ)
    (hu : ∀ s yr lo hi, lo ≤ hi → lo ≤ r.uniform s yr lo hi ∧ r.uniform s yr lo hi ≤ hi) :
    ∃ shock : ℚ,
      rawValue r radio p sy y =
        p.base + p.trend * ((y : ℚ) - (sy : ℚ)) + r.normal radio y 0 p.volatility + shock ∧
      (y = 2008 → ∃ u, 1 ≤ u ∧ u ≤ 2 ∧ shock = -u) ∧
      (y = 2020 → 2 ≤ shock ∧ shock ≤ 4) ∧
      (y = 2021 → -1 ≤ shock ∧ shock ≤ 1) ∧
      (y ≠ 2008 → y ≠ 2020 → y ≠ 2021 → shock = 0) := by
  unfold rawValue
  by_cases h8 : y = 2008
  · subst h8
    rw [if_pos rfl]
    rcases hu radio 2008 (-2) (-1) (by norm_num) with ⟨hl, hr⟩
    refine ⟨r.uniform radio 2008 (-2) (-1), rfl, ?_, ?_, ?_, ?_⟩
    · intro _
      exact ⟨-(r.uniform radio 2008 (-2) (-1)), by linarith, by linarith, (neg_neg _).symm⟩
    · intro hh
      exact absurd hh (by decide)
    · intro hh
      exact absurd hh (by decide)
    · intro hh
      exact absurd rfl hh
  · rw [if_neg h8]
    by_cases h20 : y = 2020
    · subst h20
      rw [if_pos rfl]
      rcases hu radio 2020 2 4 (by norm_num) with ⟨hl, hr⟩
      refine ⟨r.uniform radio 2020 2 4, rfl, ?_, fun _ => ⟨hl, hr⟩, ?_, ?_⟩
      · intro hh
        exact absurd hh (by decide)
      · intro hh
        exact absurd hh (by decide)
      · intro _ hh _
        exact absurd rfl hh
    · rw [if_neg h20]
      by_cases h21 : y = 2021
      · subst h21
        rw [if_pos rfl]
        rcases hu radio 2021 (-1) 1 (by norm_num) with ⟨hl, hr⟩
        refine ⟨r.uniform radio 2021 (-1) 1, rfl, ?_, ?_, fun _ => ⟨hl, hr⟩, ?_⟩
        · intro hh
          exact absurd hh (by decide)
        · intro hh
          exact absurd hh (by decide)
        · intro _ _ hh
          exact absurd rfl hh
      · rw [if_neg h21]
        exact ⟨0, by ring, fun hh => absurd hh h8, fun hh => absurd hh h20,
          fun hh => absurd hh h21, fun _ _ _ => rfl⟩

/-- Witness for C4: the lower-endpoint random source at year 2020. -/
theorem raw_value_decomposition_witness :
    (∀ s yr lo hi, lo ≤ hi →
      lo ≤ loRand.uniform s yr lo hi ∧ loRand.uniform s yr lo hi ≤ hi) ∧
    ∃ shock : ℚ,
      rawValue loRand "Réunion 1ère" ⟨28.5, -0.25, 0.8⟩ 2002 2020 =
        (28.5 : ℚ) + (-0.25 : ℚ) * (((2020 : ℤ) : ℚ) - ((2002 : ℤ) : ℚ)) +
          loRand.normal "Réunion 1ère" 2020 0 0.8 + shock ∧
      ((2020 : ℤ) = 2008 → ∃ u, 1 ≤ u ∧ u ≤ 2 ∧ shock = -u) ∧
      ((2020 : ℤ) = 2020 → 2 ≤ shock ∧ shock ≤ 4) ∧
      ((2020 : ℤ) = 2021 → -1 ≤ shock ∧ shock ≤ 1) ∧
      ((2020 : ℤ) ≠ 2008 → (2020 : ℤ) ≠ 2020 → (2020 : ℤ) ≠ 2021 → shock = 0) :=
  ⟨fun _ _ lo _ h => ⟨le_refl lo, h⟩,
   raw_value_decomposition loRand "Réunion 1ère" ⟨28.5, -0.25, 0.8⟩ 2002 2020
     (fun _ _ lo _ h => ⟨le_refl lo, h⟩)⟩

/-- Claim C5: the flat table has one record per (station, covered year):
its length is the sum over stations of `2025 − start_year + 1`, which is
189 for the fixed registries. -/
theorem flat_record_count (r : Rand) :
    ((get_all_data r).length : ℤ) =
      (trends.map (fun t => 2025 - startYear t.1 + 1)).sum ∧
    (get_all_data r).length = 189 := by
  have hlen : (get_all_data r).length = 189 := by
    rw [← List.length_map (get_all_data r) (fun rec => rec.radio),
      map_radio_get_all_data r]
    decide
  refine ⟨?_, hlen⟩
  rw [hlen]
  decide

/-- Claim C6: every flat record's Type, Couleur and Lancement fields equal
the attributes stored in the static `radios` registry for its station. -/
theorem flat_record_matches_registry (r : Rand) (rec : FlatRecord)
    (h : rec ∈ get_all_data r) :
    ∃ info, radios.lookup rec.radio = some info ∧
      rec.type = info.type ∧ rec.couleur = info.couleur ∧
      rec.lancement = info.lancement := by
  rcases mem_get_all_data h with ⟨t, ht, y, _, rfl⟩
  have hname : (radios.lookup t.1).isSome = true :=
    registry_complete t.1 (List.mem_map.mpr ⟨t, ht, rfl⟩)
  rcases hopt : radios.lookup t.1 with _ | info
  · rw [hopt] at hname
    simp at hname
  · have hinfo : radioInfo t.1 = info := by
      unfold radioInfo
      rw [hopt]
      rfl
    exact ⟨info, hopt, by rw [show (mkRecord t.1 y _).type = (radioInfo t.1).type from rfl, hinfo],
      by rw [show (mkRecord t.1 y _).couleur = (radioInfo t.1).couleur from rfl, hinfo],
      by rw [show (mkRecord t.1 y _).lancement = (radioInfo t.1).lancement from rfl, hinfo]⟩

/-- Witness for C6: the first record of the table under the all-zero
random source. -/
theorem flat_record_matches_registry_witness :
    ∃ info, radios.lookup (mkRecord "Réunion 1ère" 2002 28.5).radio = some info ∧
      (mkRecord "Réunion 1ère" 2002 28.5).type = info.type ∧
      (mkRecord "Réunion 1ère" 2002 28.5).couleur = info.couleur ∧
      (mkRecord "Réunion 1ère" 2002 28.5).lancement = info.lancement :=
  flat_record_matches_registry zeroRand (mkRecord "Réunion 1ère" 2002 28.5)
    (by with_unfolding_all decide)

/-- Claim C7: writing the flat table to CSV and parsing it back
reproduces exactly the in-memory list of (station, year, value) triples,
each value preserved to one decimal digit. -/
theorem csv_round_trip (r : Rand) :
    parseCSV (writeCSV (get_all_data r)) =
      some ((get_all_data r).map (fun rec => (rec.radio, rec.annee, rec.audience))) := by
  apply parseCSV_writeCSV
  intro rec hrec
  rcases mem_get_all_data hrec with ⟨t, ht, y, hy, rfl⟩
  rcases finalValue_eq_tenths r t.1 t.2 (startYear t.1) y with ⟨k, hk, h1, h2⟩
  rcases mem_stationYears.mp hy with ⟨hb1, hb2, _⟩
  exact parseRow_csvCells hb1 hb2 hk h1 h2

/-- Claim C8 (refuting the console half): at the failing input — station
Réunion 1ère under the all-zero random source — the console printout's
delta (`max − first`) is 0, while the start-to-end delta (last − first,
which is what the chart panel computes) is 22.8 − 28.5 = −5.7. -/
theorem console_trend_uses_max_not_last :
    consoleTrend zeroRand "Réunion 1ère" = some 0 ∧
    (stationAudiences zeroRand "Réunion 1ère").head? = some 28.5 ∧
    (stationAudiences zeroRand "Réunion 1ère").getLast? = some 22.8 ∧
    chartTrend zeroRand "Réunion 1ère" = some (22.8 - 28.5) ∧
    some (0 : ℚ) ≠ some (22.8 - 28.5 : ℚ) := by
  with_unfolding_all decide

end Radio
